import Mathlib

/-!
Shallow embedding of the sensor-system CRUD backend.

The repository is an Express + Mongoose application with three resources
(Machine, Sensor, SensorData).  This file embeds, as executable Lean
definitions, the parts of the code the claims are about:

* the express-validator middleware chains attached to each route
  (`FieldRule`, `runValidation`), including the fact that a validator that
  is declared without `.optional()` fails on an absent field;
* the Mongoose schemas of `models/machine` (inside `models/sensor.js`),
  `models/sensor.js` and `models/sensorData.js`, with their cast semantics
  (`castNumber`, `castString`, `castObjectId`, `castDate`); the schemas use
  the misspelled option `require:` instead of `required:`, which Mongoose
  does not recognise, so no schema-level presence check ever runs;
* the route handlers themselves, as state-passing functions over a `Store`
  holding the three collections.  Mongoose behaviours that the handlers rely
  on are modelled explicitly: `findByIdAndUpdate` casts the update document
  and does not run the `pre('save')` hook; `new Model(body)` keeps only
  schema fields (strict mode) and applies defaults; a malformed id given to
  `findById`/`find` raises a CastError, which each handler's `catch` block
  converts to an HTTP error response.
-/

namespace SensorSystem

/-- Document identifiers are MongoDB ObjectId strings. -/
abbrev ObjectId := String

/-- JSON values as they arrive in a parsed request body. -/
inductive JValue where
  | str : String → JValue
  | num : Int → JValue
  | bool : Bool → JValue
  | null : JValue
deriving DecidableEq, Repr

/-- A parsed JSON request body: an association list of fields. -/
abbrev Payload := List (String × JValue)

/-- Field lookup in a request body. -/
def lookupField (p : Payload) (f : String) : Option JValue :=
  (p.find? (fun kv => kv.1 == f)).map (fun kv => kv.2)

/-- Hexadecimal digit test, as used by the ObjectId format. -/
def isHexChar (c : Char) : Bool :=
  c.isDigit || (decide ('a' ≤ c) && decide (c ≤ 'f')) || (decide ('A' ≤ c) && decide (c ≤ 'F'))

/-- The Mongo ObjectId format check (`isMongoId` in express-validator and the
cast check applied by Mongoose to `ObjectId`-typed fields): a 24-character
hexadecimal string. -/
def isMongoId (s : String) : Bool :=
  s.data.length == 24 && s.data.all isHexChar

/-- Decimal digits to a natural number. -/
def digitsToNat (l : List Char) : Nat :=
  l.foldl (fun a c => a * 10 + (c.toNat - 48)) 0

/-- Integer parse of a decimal string, used to model numeric-string
acceptance by `isNumeric` and by Mongoose's Number cast. -/
def parseIntStr (s : String) : Option Int :=
  match s.data with
  | [] => none
  | c :: rest =>
    if c = '-' then
      if !rest.isEmpty && rest.all Char.isDigit then
        some (-(Int.ofNat (digitsToNat rest)))
      else none
    else if (c :: rest).all Char.isDigit then
      some (Int.ofNat (digitsToNat (c :: rest)))
    else none

/-- express-validator `isString`: the value is a JSON string. -/
def isStringCheck : JValue → Bool
  | .str _ => true
  | _ => false

/-- express-validator `isNumeric`: a JSON number, or a string parsing as a
number; booleans and null are stringified and fail. -/
def isNumericCheck : JValue → Bool
  | .num _ => true
  | .str s => (parseIntStr s).isSome
  | _ => false

/-- express-validator `isMongoId`: a string in ObjectId format. -/
def isMongoIdCheck : JValue → Bool
  | .str s => isMongoId s
  | _ => false

/-- One express-validator rule of a middleware chain: a body field name, an
`.optional()` flag, and the type check.  A rule without `.optional()` runs
its check on the missing value and fails, recording an error whose path is
the field name. -/
structure FieldRule where
  field : String
  opt : Bool
  check : JValue → Bool

/-- The error (the offending field's name, as reported in the `errors`
array) a single rule produces on a body, if any. -/
def ruleError (p : Payload) (r : FieldRule) : Option String :=
  match lookupField p r.field with
  | none => if r.opt then none else some r.field
  | some v => if r.check v then none else some r.field

/-- Whether a rule fails on a body. -/
def ruleFails (p : Payload) (r : FieldRule) : Bool :=
  (ruleError p r).isSome

/-- `validationResult(req).array()`: the errors collected by every rule of
the chain, in chain order. -/
def runValidation (rules : List FieldRule) (p : Payload) : List String :=
  rules.filterMap (ruleError p)

/-- Cast-error message produced by Mongoose for Number fields. -/
def msgCastNumber : String := "Cast to Number failed"

/-- Cast-error message produced by Mongoose for ObjectId values. -/
def msgCastObjectId : String := "Cast to ObjectId failed"

/-- Cast-error message produced by Mongoose for Date fields. -/
def msgCastDate : String := "Cast to date failed"

/-- Mongoose cast for a `Number` schema field: numbers pass, numeric
strings are parsed, booleans become 0/1, null clears the field, anything
else raises a CastError. -/
def castNumber : JValue → Except String (Option Int)
  | .num n => .ok (some n)
  | .str s =>
    match parseIntStr s with
    | some n => .ok (some n)
    | none => .error msgCastNumber
  | .bool b => .ok (some (if b then 1 else 0))
  | .null => .ok none

/-- Mongoose cast for a `String` schema field: primitives are stringified,
so every JSON primitive is accepted. -/
def castString : JValue → Except String (Option String)
  | .str s => .ok (some s)
  | .num n => .ok (some (toString n))
  | .bool b => .ok (some (toString b))
  | .null => .ok none

/-- Mongoose cast for an `ObjectId` schema field: only strings in ObjectId
format (or null) are accepted. -/
def castObjectId : JValue → Except String (Option ObjectId)
  | .str s => if isMongoId s then .ok (some s) else .error msgCastObjectId
  | .null => .ok none
  | _ => .error msgCastObjectId

/-- Mongoose cast for a `Date` schema field, on a millisecond timestamp or
a numeric string. -/
def castDate : JValue → Except String Nat
  | .num n => if n < 0 then .error msgCastDate else .ok n.toNat
  | .str s =>
    match parseIntStr s with
    | some n => if n < 0 then .error msgCastDate else .ok n.toNat
    | none => .error msgCastDate
  | _ => .error msgCastDate

/-- Apply one schema field of an update/create body: keep the current value
when the field is absent, otherwise cast the supplied value. -/
def setField {β : Type} (p : Payload) (f : String) (cast : JValue → Except String β)
    (cur : β) : Except String β :=
  match lookupField p f with
  | none => .ok cur
  | some v => cast v

/-- A Machine document (schema in `models/sensor.js`, second part): name,
description, companyName, createDate, updateDate.  The schema spells the
presence option `require:`, which Mongoose ignores, so nothing is enforced
at save time. -/
structure Machine where
  name : Option String
  description : Option String
  companyName : Option String
  createDate : Nat
  updateDate : Nat
deriving DecidableEq, Repr

/-- A Sensor document (schema in `models/sensor.js`). -/
structure Sensor where
  name : Option String
  unitOfMeasurement : Option String
  minValue : Option Int
  maxValue : Option Int
  createDate : Nat
  machine : Option ObjectId
deriving DecidableEq, Repr

/-- A SensorData document (schema in `models/sensorData.js`): fields
`value`, `rawValue`, `date` and the reference field `sensor` — not
`sensorId`.  All presence options are the ignored `require:` spelling, so
a document with no `sensor` saves successfully. -/
structure SensorData where
  value : Option Int
  rawValue : Option Int
  date : Nat
  sensor : Option ObjectId
deriving DecidableEq, Repr

/-- The document store: the three collections, as id-document lists. -/
structure Store where
  machines : List (ObjectId × Machine)
  sensors : List (ObjectId × Sensor)
  sensorData : List (ObjectId × SensorData)
deriving DecidableEq, Repr

/-- An HTTP response body, as the handlers build them: a single document
(`res.json(doc)`), a document list, a `\x7b errors: [...] \x7d` array of
field-level validation errors (each entry naming its field), or a
`\x7b message: ... \x7d` object. -/
inductive Body (α : Type) where
  | doc : ObjectId → α → Body α
  | docs : List (ObjectId × α) → Body α
  | errs : List String → Body α
  | msg : String → Body α
deriving DecidableEq, Repr

/-- An HTTP response: status code and body. -/
structure Resp (α : Type) where
  status : Nat
  body : Body α
deriving DecidableEq, Repr

/-- Validator chain of POST /machine: `body('name').isString()`,
`body('description').isString()`, `body('companyName').isString()` — none
of the three carries `.optional()`. -/
def machinePostRules : List FieldRule :=
  [⟨"name", false, isStringCheck⟩,
   ⟨"description", false, isStringCheck⟩,
   ⟨"companyName", false, isStringCheck⟩]

/-- Validator chain attached to PATCH /machine/:id (all `.optional()`); the
handler never calls `validationResult`, so this chain has no effect on the
response. -/
def machinePatchRules : List FieldRule :=
  [⟨"name", true, isStringCheck⟩,
   ⟨"description", true, isStringCheck⟩,
   ⟨"companyName", true, isStringCheck⟩]

/-- Validator chain of POST /sensor: name and unitOfMeasurement `isString`,
minValue and maxValue `isNumeric`, machine `isMongoId` — none `.optional()`,
so minValue and maxValue are required by this route. -/
def sensorPostRules : List FieldRule :=
  [⟨"name", false, isStringCheck⟩,
   ⟨"unitOfMeasurement", false, isStringCheck⟩,
   ⟨"minValue", false, isNumericCheck⟩,
   ⟨"maxValue", false, isNumericCheck⟩,
   ⟨"machine", false, isMongoIdCheck⟩]

/-- Validator chain attached to PATCH /sensor/:id (all `.optional()`);
never consulted by the handler. -/
def sensorPatchRules : List FieldRule :=
  [⟨"name", true, isStringCheck⟩,
   ⟨"unitOfMeasurement", true, isStringCheck⟩,
   ⟨"minValue", true, isNumericCheck⟩,
   ⟨"maxValue", true, isNumericCheck⟩,
   ⟨"machine", true, isMongoIdCheck⟩]

/-- Validator chain of POST /sensor-data (current router): value and
rawValue `isNumeric`, sensor `isMongoId`. -/
def sensorDataPostRules : List FieldRule :=
  [⟨"value", false, isNumericCheck⟩,
   ⟨"rawValue", false, isNumericCheck⟩,
   ⟨"sensor", false, isMongoIdCheck⟩]

/-- Validator chain attached to PATCH /sensor-data/:id (all `.optional()`);
never consulted by the handler. -/
def sensorDataPatchRules : List FieldRule :=
  [⟨"value", true, isNumericCheck⟩,
   ⟨"rawValue", true, isNumericCheck⟩,
   ⟨"sensor", true, isMongoIdCheck⟩]

/-- Validator chain of the historical POST /sensor-data variant: value and
rawValue `isNumeric`, and `sensorId` (not `sensor`) `isMongoId`. -/
def sensorDataPostHistRules : List FieldRule :=
  [⟨"value", false, isNumericCheck⟩,
   ⟨"rawValue", false, isNumericCheck⟩,
   ⟨"sensorId", false, isMongoIdCheck⟩]

/-- `findByIdAndUpdate` applied to a Machine document: each schema field
present in the update body is cast and set (strict mode ignores unknown
fields); a cast failure aborts the whole update with a CastError.  The
`pre('save')` hook is not run by `findByIdAndUpdate`, so `updateDate` is
only touched when the body itself supplies it. -/
def machineApplyUpdate (m : Machine) (p : Payload) : Except String Machine :=
  match setField p ("name") castString m.name with
  | .error e => .error e
  | .ok name =>
    match setField p ("description") castString m.description with
    | .error e => .error e
    | .ok description =>
      match setField p ("companyName") castString m.companyName with
      | .error e => .error e
      | .ok companyName =>
        match setField p ("createDate") castDate m.createDate with
        | .error e => .error e
        | .ok createDate =>
          match setField p ("updateDate") castDate m.updateDate with
          | .error e => .error e
          | .ok updateDate => .ok ⟨name, description, companyName, createDate, updateDate⟩

/-- `new Machine(body)`: schema fields are taken from the body (with
casting), `createDate` and `updateDate` default to `Date.now`. -/
def machineNew (now : Nat) (p : Payload) : Except String Machine :=
  machineApplyUpdate ⟨none, none, none, now, now⟩ p

/-- The `machineSchema.pre('save')` hook: sets `updateDate` to the current
time.  It runs on `save()` (the create path) only. -/
def machinePreSave (now : Nat) (m : Machine) : Machine :=
  { m with updateDate := now }

/-- `findByIdAndUpdate` applied to a Sensor document. -/
def sensorApplyUpdate (se : Sensor) (p : Payload) : Except String Sensor :=
  match setField p ("name") castString se.name with
  | .error e => .error e
  | .ok name =>
    match setField p ("unitOfMeasurement") castString se.unitOfMeasurement with
    | .error e => .error e
    | .ok unitOfMeasurement =>
      match setField p ("minValue") castNumber se.minValue with
      | .error e => .error e
      | .ok minValue =>
        match setField p ("maxValue") castNumber se.maxValue with
        | .error e => .error e
        | .ok maxValue =>
          match setField p ("createDate") castDate se.createDate with
          | .error e => .error e
          | .ok createDate =>
            match setField p ("machine") castObjectId se.machine with
            | .error e => .error e
            | .ok machine => .ok ⟨name, unitOfMeasurement, minValue, maxValue, createDate, machine⟩

/-- `new Sensor(body)`: schema fields from the body, `createDate` defaults
to `Date.now`. -/
def sensorNew (now : Nat) (p : Payload) : Except String Sensor :=
  sensorApplyUpdate ⟨none, none, none, none, now, none⟩ p

/-- `findByIdAndUpdate` applied to a SensorData document.  The schema's
fields are `value`, `rawValue`, `date`, `sensor`; any other body field
(such as `sensorId`) is discarded by strict mode. -/
def sensorDataApplyUpdate (d : SensorData) (p : Payload) : Except String SensorData :=
  match setField p ("value") castNumber d.value with
  | .error e => .error e
  | .ok value =>
    match setField p ("rawValue") castNumber d.rawValue with
    | .error e => .error e
    | .ok rawValue =>
      match setField p ("date") castDate d.date with
      | .error e => .error e
      | .ok date =>
        match setField p ("sensor") castObjectId d.sensor with
        | .error e => .error e
        | .ok sensor => .ok ⟨value, rawValue, date, sensor⟩

/-- `new SensorData(body)`: schema fields from the body, `date` defaults to
`Date.now`; since the schema's presence options are the ignored `require:`
spelling, saving succeeds even with `sensor` absent. -/
def sensorDataNew (now : Nat) (p : Payload) : Except String SensorData :=
  sensorDataApplyUpdate ⟨none, none, now, none⟩ p

/-- `Model.findById`-style lookup in a collection. -/
def findDoc {α : Type} (l : List (ObjectId × α)) (id : ObjectId) : Option α :=
  (l.find? (fun kv => kv.1 == id)).map (fun kv => kv.2)

/-- `findByIdAndDelete`: remove the matching document. -/
def removeDoc {α : Type} (l : List (ObjectId × α)) (id : ObjectId) :
    List (ObjectId × α) :=
  l.eraseP (fun kv => kv.1 == id)

/-- Replace the document stored under an id. -/
def updateDocList {α : Type} (l : List (ObjectId × α)) (id : ObjectId) (d : α) :
    List (ObjectId × α) :=
  l.map (fun kv => if kv.1 == id then (kv.1, d) else kv)

/-- Not-found message of the machine router. -/
def msgMachineNotFound : String := "Machine entry not found"

/-- Delete acknowledgment of the machine router. -/
def msgMachineDeleted : String := "Machine entry deleted successfully"

/-- Not-found message of the sensor router. -/
def msgSensorNotFound : String := "Sensor entry not found"

/-- Not-found message of the sensor-data router. -/
def msgSensorDataNotFound : String := "Sensor data entry not found"

/-- POST /machine: runs `validationResult` on `machinePostRules` and
returns 400 with the full errors array when non-empty; otherwise
`new Machine(req.body)` + `save()` (running the pre-save hook), 201 with
the persisted document; a cast error is caught and returned as 400 with a
message. -/
def machinePost (now : Nat) (freshId : ObjectId) (s : Store) (p : Payload) :
    Resp Machine × Store :=
  let errs := runValidation machinePostRules p
  if errs.isEmpty then
    match machineNew now p with
    | .error e => (⟨400, .msg e⟩, s)
    | .ok m =>
      let m := machinePreSave now m
      (⟨201, .doc freshId m⟩, { s with machines := s.machines ++ [(freshId, m)] })
  else (⟨400, .errs errs⟩, s)

/-- GET /machine: `res.status(201).json(machines)` — the source hard-codes
status 201 on the list route (its doc comment says 200). -/
def machineList (s : Store) : Resp Machine :=
  ⟨201, .docs s.machines⟩

/-- GET /machine/:id: `findById` throws a CastError on a malformed id,
which the catch block turns into 500; an absent document gives 404;
otherwise `res.json(machine)` (status 200). -/
def machineGetById (s : Store) (id : String) : Resp Machine :=
  if isMongoId id then
    match findDoc s.machines id with
    | none => ⟨404, .msg msgMachineNotFound⟩
    | some m => ⟨200, .doc id m⟩
  else ⟨500, .msg msgCastObjectId⟩

/-- PATCH /machine/:id: validators are attached but `validationResult` is
never called, so they do not influence the response; the handler goes
straight to `findByIdAndUpdate` (no pre-save hook), whose CastError on a
malformed id or a bad field value lands in the catch block as 400. -/
def machinePatch (s : Store) (id : String) (p : Payload) :
    Resp Machine × Store :=
  if isMongoId id then
    match findDoc s.machines id with
    | none => (⟨404, .msg msgMachineNotFound⟩, s)
    | some m =>
      match machineApplyUpdate m p with
      | .error e => (⟨400, .msg e⟩, s)
      | .ok m2 => (⟨200, .doc id m2⟩, { s with machines := updateDocList s.machines id m2 })
  else (⟨400, .msg msgCastObjectId⟩, s)

/-- DELETE /machine/:id: `findByIdAndDelete`; a malformed id's CastError is
caught as 500; an absent document gives 404; otherwise the machine is
removed and a 200 acknowledgment message returned. -/
def machineDelete (s : Store) (id : String) : Resp Machine × Store :=
  if isMongoId id then
    match findDoc s.machines id with
    | none => (⟨404, .msg msgMachineNotFound⟩, s)
    | some _ => (⟨200, .msg msgMachineDeleted⟩, { s with machines := removeDoc s.machines id })
  else (⟨500, .msg msgCastObjectId⟩, s)

/-- POST /sensor: checks `validationResult` on `sensorPostRules` (which
requires minValue and maxValue), then `new Sensor(req.body)` + `save()`,
201 with the persisted document. -/
def sensorPost (now : Nat) (freshId : ObjectId) (s : Store) (p : Payload) :
    Resp Sensor × Store :=
  let errs := runValidation sensorPostRules p
  if errs.isEmpty then
    match sensorNew now p with
    | .error e => (⟨400, .msg e⟩, s)
    | .ok se => (⟨201, .doc freshId se⟩, { s with sensors := s.sensors ++ [(freshId, se)] })
  else (⟨400, .errs errs⟩, s)

/-- GET /sensor: `res.status(201).json(sensors)` — status 201, like the
machine list route. -/
def sensorList (s : Store) : Resp Sensor :=
  ⟨201, .docs s.sensors⟩

/-- GET /sensor/:id: CastError on a malformed id → 500; absent → 404;
otherwise 200 with the document. -/
def sensorGetById (s : Store) (id : String) : Resp Sensor :=
  if isMongoId id then
    match findDoc s.sensors id with
    | none => ⟨404, .msg msgSensorNotFound⟩
    | some se => ⟨200, .doc id se⟩
  else ⟨500, .msg msgCastObjectId⟩

/-- PATCH /sensor/:id: like the machine patch route, the attached
validators are never consulted; `findByIdAndUpdate` casts and applies the
body, CastErrors land in the catch block as 400. -/
def sensorPatch (s : Store) (id : String) (p : Payload) :
    Resp Sensor × Store :=
  if isMongoId id then
    match findDoc s.sensors id with
    | none => (⟨404, .msg msgSensorNotFound⟩, s)
    | some se =>
      match sensorApplyUpdate se p with
      | .error e => (⟨400, .msg e⟩, s)
      | .ok s2 => (⟨200, .doc id s2⟩, { s with sensors := updateDocList s.sensors id s2 })
  else (⟨400, .msg msgCastObjectId⟩, s)

/-- GET /sensor/:machineId/sensor: `Sensor.find(\x7b machine: machineId \x7d)`
with status 200 — a pure filter on the machine reference, no existence
check of the machine; a malformed machineId's CastError is caught as 500. -/
def sensorListByMachine (s : Store) (machineId : String) : Resp Sensor :=
  if isMongoId machineId then
    ⟨200, .docs (s.sensors.filter (fun kv => kv.2.machine == some machineId))⟩
  else ⟨500, .msg msgCastObjectId⟩

/-- POST /sensor-data (current router): checks `validationResult` on
`sensorDataPostRules`, then `new SensorData(req.body)` + `save()`, 201. -/
def sensorDataPost (now : Nat) (freshId : ObjectId) (s : Store) (p : Payload) :
    Resp SensorData × Store :=
  let errs := runValidation sensorDataPostRules p
  if errs.isEmpty then
    match sensorDataNew now p with
    | .error e => (⟨400, .msg e⟩, s)
    | .ok d => (⟨201, .doc freshId d⟩, { s with sensorData := s.sensorData ++ [(freshId, d)] })
  else (⟨400, .errs errs⟩, s)

/-- PATCH /sensor-data/:id: validators attached, `validationResult` never
called; `findByIdAndUpdate` casts and applies the body, CastErrors land in
the catch block as 400. -/
def sensorDataPatch (s : Store) (id : String) (p : Payload) :
    Resp SensorData × Store :=
  if isMongoId id then
    match findDoc s.sensorData id with
    | none => (⟨404, .msg msgSensorDataNotFound⟩, s)
    | some d =>
      match sensorDataApplyUpdate d p with
      | .error e => (⟨400, .msg e⟩, s)
      | .ok d2 => (⟨200, .doc id d2⟩, { s with sensorData := updateDocList s.sensorData id d2 })
  else (⟨400, .msg msgCastObjectId⟩, s)

/-- The historical POST /sensor-data variant: validates `value`,
`rawValue` and `sensorId`, then builds `new SensorData(req.body)` against
the schema of `models/sensorData.js`, whose reference field is `sensor` —
so the validated `sensorId` field is discarded by strict mode and the
document saves with no sensor reference. -/
def sensorDataPostHistorical (now : Nat) (freshId : ObjectId) (s : Store) (p : Payload) :
    Resp SensorData × Store :=
  let errs := runValidation sensorDataPostHistRules p
  if errs.isEmpty then
    match sensorDataNew now p with
    | .error e => (⟨400, .msg e⟩, s)
    | .ok d => (⟨201, .doc freshId d⟩, { s with sensorData := s.sensorData ++ [(freshId, d)] })
  else (⟨400, .errs errs⟩, s)

/-- A well-formed machine id used in concrete evaluations. -/
def mid1 : ObjectId := "aaaaaaaaaaaaaaaaaaaaaaaa"

/-- A second well-formed machine id, distinct from `mid1`. -/
def mid2 : ObjectId := "cccccccccccccccccccccccc"

/-- A well-formed sensor id. -/
def sid1 : ObjectId := "dddddddddddddddddddddddd"

/-- A well-formed sensor-data id. -/
def did1 : ObjectId := "bbbbbbbbbbbbbbbbbbbbbbbb"

/-- A well-formed fresh id handed to create handlers. -/
def fid1 : ObjectId := "eeeeeeeeeeeeeeeeeeeeeeee"

/-- The empty store. -/
def emptyStore : Store := ⟨[], [], []⟩

/-- A store holding one machine whose createDate and updateDate are both 10. -/
def c1Store : Store :=
  ⟨[(mid1, ⟨some ("m1"), none, none, 10, 10⟩)], [], []⟩

/-- A store holding one sensor-data document with value 5. -/
def c2Store : Store :=
  ⟨[], [], [(did1, ⟨some 5, some 5, 0, some sid1⟩)]⟩

/-- C1: the claim says every successful PATCH /machine/:id refreshes
updateDate to the current time, making successive updateDate values
strictly increasing and never older than createDate.  The code uses
`findByIdAndUpdate`, which does not run the `machineSchema.pre('save')`
hook (the only place updateDate is refreshed), so a successful patch whose
body does not mention updateDate leaves it unchanged: two sequential
successful updates keep updateDate at its old value 10 (not strictly
increasing), and a caller-supplied updateDate of 3 is applied verbatim,
leaving updateDate older than createDate 10.  This theorem evaluates the
embedded handler at those failing inputs. -/
theorem machine_patch_never_refreshes_updateDate :
    machinePatch c1Store mid1 [("name", JValue.str ("x"))]
      = (⟨200, .doc mid1 ⟨some ("x"), none, none, 10, 10⟩⟩,
         ⟨[(mid1, ⟨some ("x"), none, none, 10, 10⟩)], [], []⟩)
    ∧ machinePatch (machinePatch c1Store mid1 [("name", JValue.str ("x"))]).2 mid1
        [("name", JValue.str ("y"))]
      = (⟨200, .doc mid1 ⟨some ("y"), none, none, 10, 10⟩⟩,
         ⟨[(mid1, ⟨some ("y"), none, none, 10, 10⟩)], [], []⟩)
    ∧ machinePatch c1Store mid1 [("updateDate", JValue.num 3)]
      = (⟨200, .doc mid1 ⟨some ("m1"), none, none, 10, 3⟩⟩,
         ⟨[(mid1, ⟨some ("m1"), none, none, 10, 3⟩)], [], []⟩) := by
  decide

/-- C2: the claim says every field of a PATCH body must pass its declared
type check before the store is touched and that PATCH /sensor-data/:id
with a non-numeric value yields 400 with an errors array naming `value`.
The handler never calls `validationResult`, so the attached
`.optional().isNumeric()` check is dead: a non-numeric string reaches
Mongoose, whose CastError is reported as 400 with a `message` body — no
errors array — even though the declared chain (`sensorDataPatchRules`)
would have flagged exactly `value`; and a boolean `value` is cast to 1 and
persisted with status 200, modifying the document despite failing the
declared check.  This theorem evaluates the embedded handler at those
failing inputs. -/
theorem sensor_data_patch_bypasses_validation :
    sensorDataPatch c2Store did1 [("value", JValue.str ("abc"))]
      = (⟨400, .msg msgCastNumber⟩, c2Store)
    ∧ runValidation sensorDataPatchRules [("value", JValue.str ("abc"))] = ["value"]
    ∧ sensorDataPatch c2Store did1 [("value", JValue.bool true)]
      = (⟨200, .doc did1 ⟨some 1, some 5, 0, some sid1⟩⟩,
         ⟨[], [], [(did1, ⟨some 1, some 5, 0, some sid1⟩)]⟩)
    ∧ runValidation sensorDataPatchRules [("value", JValue.bool true)] = ["value"] := by
  decide

/-- C3 counterexample: the claim says GET /machine/:id and GET /sensor/:id
with a malformed id respond 404, not 500.  At the concrete malformed id
"xyz" both handlers respond 500 (the CastError of `findById` lands in the
generic catch block), so the claim as stated is false. -/
theorem get_by_malformed_id_counterexample :
    machineGetById emptyStore ("xyz") = ⟨500, .msg msgCastObjectId⟩
    ∧ (machineGetById emptyStore ("xyz")).status ≠ 404
    ∧ sensorGetById emptyStore ("xyz") = ⟨500, .msg msgCastObjectId⟩
    ∧ (sensorGetById emptyStore ("xyz")).status ≠ 404 := by
  decide

/-- C3 amended: for every id that is not a well-formed ObjectId, GET
/machine/:id and GET /sensor/:id respond 500 with the store's cast-error
message (the malformed id is not treated as NotFound; 404 is reserved for
well-formed ids with no matching document). -/
theorem get_by_malformed_id_responds_500 (s : Store) (id : String)
    (h : isMongoId id = false) :
    machineGetById s id = ⟨500, .msg msgCastObjectId⟩
    ∧ sensorGetById s id = ⟨500, .msg msgCastObjectId⟩ := by
  constructor
  · simp [machineGetById, h]
  · simp [sensorGetById, h]

/-- C3 witness: the amended theorem applied at the malformed id "zz" and
the empty store. -/
theorem get_by_malformed_id_responds_500_witness :
    machineGetById emptyStore ("zz") = ⟨500, .msg msgCastObjectId⟩
    ∧ sensorGetById emptyStore ("zz") = ⟨500, .msg msgCastObjectId⟩ :=
  get_by_malformed_id_responds_500 emptyStore ("zz") (by decide)

/-- C4: the claim says POST /machine with a valid name and no description
or companyName is accepted with 201, the two fields being optional.  The
route's validators `body('description').isString()` and
`body('companyName').isString()` carry no `.optional()`, so the absent
fields fail their checks and the request is rejected 400 with an errors
array naming both, persisting nothing; supplying all three strings is what
yields 201.  This theorem evaluates the embedded handler at the failing
input and at the all-fields input. -/
theorem machine_post_rejects_missing_optional_fields :
    machinePost 7 fid1 emptyStore [("name", JValue.str ("Lathe-1"))]
      = (⟨400, .errs ["description", "companyName"]⟩, emptyStore)
    ∧ machinePost 7 fid1 emptyStore
        [("name", JValue.str ("Lathe-1")), ("description", JValue.str ("CNC lathe")),
         ("companyName", JValue.str ("Acme"))]
      = (⟨201, .doc fid1 ⟨some ("Lathe-1"), some ("CNC lathe"), some ("Acme"), 7, 7⟩⟩,
         ⟨[(fid1, ⟨some ("Lathe-1"), some ("CNC lathe"), some ("Acme"), 7, 7⟩)], [], []⟩) := by
  decide

/-- C5: the claim says the list routes GET /machine and GET /sensor respond
200 with all documents.  Both handlers return every document of their
collection, but with `res.status(201)`: the status is 201 on every store,
not the 200 the claim (and the routes' own doc comments) state. -/
theorem list_routes_respond_201_with_all_docs :
    ∀ s : Store,
      machineList s = ⟨201, Body.docs s.machines⟩
      ∧ sensorList s = ⟨201, Body.docs s.sensors⟩ :=
  fun _ => ⟨rfl, rfl⟩

/-- A non-empty list has `isEmpty = false`. -/
lemma isEmpty_false_of_ne_nil {α : Type} {l : List α} (h : l ≠ []) :
    l.isEmpty = false := by
  cases l with
  | nil => exact absurd rfl h
  | cons a t => rfl

/-- A rule's error, when produced, names the rule's own field. -/
lemma ruleError_field {p : Payload} {r : FieldRule} {f : String}
    (h : ruleError p r = some f) : r.field = f := by
  unfold ruleError at h
  cases hl : lookupField p r.field <;> rw [hl] at h
  · by_cases ho : r.opt = true
    · simp [ho] at h
    · simp [ho] at h
      exact h
  · rename_i v
    by_cases hc : r.check v = true
    · simp [hc] at h
    · simp [hc] at h
      exact h

/-- A required (non-optional) rule whose field is absent from the body
contributes its field name to the validation errors. -/
lemma mem_runValidation_of_missing (rules : List FieldRule) (p : Payload)
    (r : FieldRule) (hr : r ∈ rules) (hopt : r.opt = false)
    (hlook : lookupField p r.field = none) :
    r.field ∈ runValidation rules p := by
  refine List.mem_filterMap.mpr ⟨r, hr, ?_⟩
  simp [ruleError, hlook, hopt]

/-- The validation errors are non-empty as soon as one field belongs to
them. -/
lemma runValidation_isEmpty_false_of_mem {rules : List FieldRule}
    {p : Payload} {f : String} (h : f ∈ runValidation rules p) :
    (runValidation rules p).isEmpty = false := by
  refine isEmpty_false_of_ne_nil ?_
  intro he
  rw [he] at h
  cases h

/-- The validation errors name exactly the fields whose rule fails on the
body: membership in `runValidation` is equivalent to the existence of a
failing rule for that field. -/
lemma mem_runValidation_iff (rules : List FieldRule) (p : Payload) (f : String) :
    f ∈ runValidation rules p
      ↔ ∃ r, r ∈ rules ∧ r.field = f ∧ ruleFails p r = true := by
  rw [runValidation, List.mem_filterMap]
  constructor
  · rintro ⟨r, hr, he⟩
    exact ⟨r, hr, ruleError_field he, by simp [ruleFails, he]⟩
  · rintro ⟨r, hr, hf, hfail⟩
    obtain ⟨g, hg⟩ := Option.isSome_iff_exists.mp (by simpa [ruleFails] using hfail)
    have : g = f := by rw [← hf]; exact (ruleError_field hg).symm
    exact ⟨r, hr, this ▸ hg⟩

/-- Payload of the C6 witness: name, unitOfMeasurement and machine present
and valid, minValue and maxValue absent. -/
def c6Payload : Payload :=
  [("name", JValue.str ("Pressure")), ("unitOfMeasurement", JValue.str ("bar")),
   ("machine", JValue.str mid1)]

/-- C6 counterexample: the claim says POST /sensor with valid name,
unitOfMeasurement and machine but no minValue/maxValue is accepted with
201.  At this concrete payload the route responds 400 with an errors array
naming minValue and maxValue, and persists nothing: the route's
`isNumeric` validators on the two fields carry no `.optional()`. -/
theorem sensor_post_missing_bounds_counterexample :
    sensorPost 7 fid1 emptyStore
        [("name", JValue.str ("Temp")), ("unitOfMeasurement", JValue.str ("C")),
         ("machine", JValue.str mid1)]
      = (⟨400, .errs ["minValue", "maxValue"]⟩, emptyStore) := by
  decide

/-- C6 amended: POST /sensor treats minValue and maxValue as required
numeric fields; every payload that omits both is rejected 400 with an
errors array naming minValue and maxValue, and the store is unchanged. -/
theorem sensor_post_requires_min_and_max (now : Nat) (freshId : ObjectId)
    (s : Store) (p : Payload)
    (hmin : lookupField p ("minValue") = none)
    (hmax : lookupField p ("maxValue") = none) :
    ∃ fields : List String,
      sensorPost now freshId s p = (⟨400, Body.errs fields⟩, s)
      ∧ "minValue" ∈ fields ∧ "maxValue" ∈ fields := by
  have h1 : "minValue" ∈ runValidation sensorPostRules p := by
    refine mem_runValidation_of_missing _ _ ⟨"minValue", false, isNumericCheck⟩ ?_ rfl hmin
    simp [sensorPostRules]
  have h2 : "maxValue" ∈ runValidation sensorPostRules p := by
    refine mem_runValidation_of_missing _ _ ⟨"maxValue", false, isNumericCheck⟩ ?_ rfl hmax
    simp [sensorPostRules]
  have hne := runValidation_isEmpty_false_of_mem h1
  exact ⟨runValidation sensorPostRules p, by simp [sensorPost, hne], h1, h2⟩

/-- C6 witness: the amended theorem applied at `c6Payload` and the empty
store. -/
theorem sensor_post_requires_min_and_max_witness :
    ∃ fields : List String,
      sensorPost 7 fid1 emptyStore c6Payload = (⟨400, Body.errs fields⟩, emptyStore)
      ∧ "minValue" ∈ fields ∧ "maxValue" ∈ fields :=
  sensor_post_requires_min_and_max 7 fid1 emptyStore c6Payload (by decide) (by decide)

/-- C7: on every entity's create route (the three current POST handlers
and the historical sensor-data variant), a body on which the route's
validator chain collects at least one error is answered 400 carrying the
full error list, and the store is returned unchanged; and the collected
list names exactly the fields whose declared rule fails (missing required
field or failed type check), not just the first. -/
theorem create_validation_rejects_before_store :
    (∀ (now : Nat) (freshId : ObjectId) (s : Store) (p : Payload),
       runValidation machinePostRules p ≠ [] →
       machinePost now freshId s p
         = (⟨400, Body.errs (runValidation machinePostRules p)⟩, s))
    ∧ (∀ (now : Nat) (freshId : ObjectId) (s : Store) (p : Payload),
       runValidation sensorPostRules p ≠ [] →
       sensorPost now freshId s p
         = (⟨400, Body.errs (runValidation sensorPostRules p)⟩, s))
    ∧ (∀ (now : Nat) (freshId : ObjectId) (s : Store) (p : Payload),
       runValidation sensorDataPostRules p ≠ [] →
       sensorDataPost now freshId s p
         = (⟨400, Body.errs (runValidation sensorDataPostRules p)⟩, s))
    ∧ (∀ (now : Nat) (freshId : ObjectId) (s : Store) (p : Payload),
       runValidation sensorDataPostHistRules p ≠ [] →
       sensorDataPostHistorical now freshId s p
         = (⟨400, Body.errs (runValidation sensorDataPostHistRules p)⟩, s))
    ∧ (∀ (rules : List FieldRule) (p : Payload) (f : String),
       f ∈ runValidation rules p
         ↔ ∃ r, r ∈ rules ∧ r.field = f ∧ ruleFails p r = true) := by
  refine ⟨?_, ?_, ?_, ?_, mem_runValidation_iff⟩ <;>
    intro now freshId s p h <;>
    simp [machinePost, sensorPost, sensorDataPost, sensorDataPostHistorical,
      isEmpty_false_of_ne_nil h]

/-- C7 witness: the theorem applied at the empty body (all required fields
missing) on each of the four create routes, and the enumeration property
at the machine rules. -/
theorem create_validation_rejects_before_store_witness :
    machinePost 7 fid1 emptyStore []
      = (⟨400, Body.errs (runValidation machinePostRules [])⟩, emptyStore)
    ∧ sensorPost 7 fid1 emptyStore []
      = (⟨400, Body.errs (runValidation sensorPostRules [])⟩, emptyStore)
    ∧ sensorDataPost 7 fid1 emptyStore []
      = (⟨400, Body.errs (runValidation sensorDataPostRules [])⟩, emptyStore)
    ∧ sensorDataPostHistorical 7 fid1 emptyStore []
      = (⟨400, Body.errs (runValidation sensorDataPostHistRules [])⟩, emptyStore)
    ∧ ("name" ∈ runValidation machinePostRules []
       ↔ ∃ r, r ∈ machinePostRules ∧ r.field = "name" ∧ ruleFails [] r = true) :=
  ⟨create_validation_rejects_before_store.1 7 fid1 emptyStore [] (by decide),
   create_validation_rejects_before_store.2.1 7 fid1 emptyStore [] (by decide),
   create_validation_rejects_before_store.2.2.1 7 fid1 emptyStore [] (by decide),
   create_validation_rejects_before_store.2.2.2.1 7 fid1 emptyStore [] (by decide),
   create_validation_rejects_before_store.2.2.2.2 machinePostRules [] ("name")⟩

/-- C8: for every well-formed machineId, GET /sensor/:machineId/sensor
responds 200 with exactly the sensors whose machine reference equals
machineId; there is no existence check on the machine, so when no sensor
matches — in particular for an unknown machine identifier — the response
is 200 with the empty sequence, not 404 and not an error. -/
theorem sensors_by_machine_filters (s : Store) (machineId : String)
    (h : isMongoId machineId = true) :
    sensorListByMachine s machineId
      = ⟨200, Body.docs (s.sensors.filter (fun kv => kv.2.machine == some machineId))⟩
    ∧ ((∀ kv ∈ s.sensors, kv.2.machine ≠ some machineId) →
       sensorListByMachine s machineId = ⟨200, Body.docs []⟩) := by
  constructor
  · simp [sensorListByMachine, h]
  · intro hnone
    have hfil : s.sensors.filter (fun kv => kv.2.machine == some machineId) = [] := by
      rw [List.filter_eq_nil_iff]
      intro kv hkv
      simp [hnone kv hkv]
    simp [sensorListByMachine, h, hfil]

/-- Store of the C8 witness: one sensor attached to `mid1` and no machine
document at all. -/
def c8Store : Store :=
  ⟨[], [(sid1, ⟨some ("Temp"), some ("C"), none, none, 0, some mid1⟩)], []⟩

/-- C8 witness: the theorem applied at the unknown (but well-formed)
machine id `mid2`, which matches no sensor of `c8Store`: the route answers
200 with the empty sequence. -/
theorem sensors_by_machine_filters_witness :
    sensorListByMachine c8Store mid2 = ⟨200, Body.docs []⟩ :=
  (sensors_by_machine_filters c8Store mid2 (by decide)).2 (by decide)

/-- C9: a successful DELETE /machine/:id (status 200) removes exactly the
matching machine document and leaves the sensor and sensor-data
collections untouched; consequently GET /sensor/:machineId/sensor returns
the same sequence after the delete as before, for every machineId —
sensors referencing the deleted machine are kept as dangling references
(no cascading delete). -/
theorem machine_delete_leaves_sensors (s : Store) (id : String)
    (hid : isMongoId id = true)
    (hok : (machineDelete s id).1.status = 200) :
    (machineDelete s id).2.sensors = s.sensors
    ∧ (machineDelete s id).2.sensorData = s.sensorData
    ∧ (machineDelete s id).2.machines = removeDoc s.machines id
    ∧ ∀ mId : String,
        sensorListByMachine (machineDelete s id).2 mId = sensorListByMachine s mId := by
  cases hf : findDoc s.machines id with
  | none =>
    rw [machineDelete, hid] at hok
    simp [hf] at hok
  | some m =>
    have hde : machineDelete s id
        = (⟨200, .msg msgMachineDeleted⟩, { s with machines := removeDoc s.machines id }) := by
      rw [machineDelete, hid]
      simp [hf]
    rw [hde]
    exact ⟨rfl, rfl, rfl, fun mId => rfl⟩

/-- Store of the C9 witness: one machine and one sensor attached to it. -/
def c9Store : Store :=
  ⟨[(mid1, ⟨some ("Lathe-1"), none, none, 10, 10⟩)],
   [(sid1, ⟨some ("Temp"), some ("C"), none, none, 0, some mid1⟩)], []⟩

/-- C9 witness: the theorem applied at `c9Store` and the machine `mid1`;
deleting the machine keeps the sensor collection and the by-machine lookup
for `mid1` itself unchanged. -/
theorem machine_delete_leaves_sensors_witness :
    (machineDelete c9Store mid1).2.sensors = c9Store.sensors
    ∧ sensorListByMachine (machineDelete c9Store mid1).2 mid1
      = sensorListByMachine c9Store mid1 :=
  ⟨(machine_delete_leaves_sensors c9Store mid1 (by decide) (by decide)).1,
   (machine_delete_leaves_sensors c9Store mid1 (by decide) (by decide)).2.2.2 mid1⟩

/-- A value passing the `isNumeric` check casts to a number. -/
lemma castNumber_ok_of_numeric {v : JValue} (h : isNumericCheck v = true) :
    ∃ n : Int, castNumber v = .ok (some n) := by
  cases v with
  | num n => exact ⟨n, rfl⟩
  | str s =>
    obtain ⟨n, hn⟩ := Option.isSome_iff_exists.mp (by simpa [isNumericCheck] using h)
    exact ⟨n, by simp [castNumber, hn]⟩
  | bool b => simp [isNumericCheck] at h
  | null => simp [isNumericCheck] at h

/-- C10: every payload accepted by the historical POST /sensor-data route
(numeric value, numeric rawValue, ObjectId-format sensorId) is persisted
with 201, and the persisted document carries no sensor reference: the
schema's reference field is `sensor`, so strict mode discards the
unrecognised `sensorId` field, and the save still succeeds because the
schema's misspelled `require:` option enforces nothing. -/
theorem historical_sensor_data_post_drops_sensorId (now : Nat)
    (freshId : ObjectId) (s : Store) (v rv : JValue) (sid : String)
    (hv : isNumericCheck v = true) (hrv : isNumericCheck rv = true)
    (hsid : isMongoId sid = true) :
    ∃ d : SensorData,
      sensorDataPostHistorical now freshId s
          [("value", v), ("rawValue", rv), ("sensorId", JValue.str sid)]
        = (⟨201, Body.doc freshId d⟩,
           { s with sensorData := s.sensorData ++ [(freshId, d)] })
      ∧ d.sensor = none := by
  obtain ⟨n1, h1⟩ := castNumber_ok_of_numeric hv
  obtain ⟨n2, h2⟩ := castNumber_ok_of_numeric hrv
  have lv : lookupField [("value", v), ("rawValue", rv), ("sensorId", JValue.str sid)]
      ("value") = some v := rfl
  have lrv : lookupField [("value", v), ("rawValue", rv), ("sensorId", JValue.str sid)]
      ("rawValue") = some rv := rfl
  have lsid : lookupField [("value", v), ("rawValue", rv), ("sensorId", JValue.str sid)]
      ("sensorId") = some (JValue.str sid) := rfl
  have ldate : lookupField [("value", v), ("rawValue", rv), ("sensorId", JValue.str sid)]
      ("date") = none := rfl
  have lsensor : lookupField [("value", v), ("rawValue", rv), ("sensorId", JValue.str sid)]
      ("sensor") = none := rfl
  refine ⟨⟨some n1, some n2, now, none⟩, ?_, rfl⟩
  have hval : runValidation sensorDataPostHistRules
      [("value", v), ("rawValue", rv), ("sensorId", JValue.str sid)] = [] := by
    simp [runValidation, sensorDataPostHistRules, ruleError, lv, lrv, lsid,
      hv, hrv, isMongoIdCheck, hsid]
  have hnew : sensorDataNew now
      [("value", v), ("rawValue", rv), ("sensorId", JValue.str sid)]
        = .ok ⟨some n1, some n2, now, none⟩ := by
    simp [sensorDataNew, sensorDataApplyUpdate, setField, lv, lrv, ldate, lsensor, h1, h2]
  simp [sensorDataPostHistorical, hval, hnew]

/-- C10 witness: the theorem applied at value 5, rawValue 4 and the
well-formed sensor id `sid1` on the empty store. -/
theorem historical_sensor_data_post_drops_sensorId_witness :
    ∃ d : SensorData,
      sensorDataPostHistorical 7 fid1 emptyStore
          [("value", JValue.num 5), ("rawValue", JValue.num 4),
           ("sensorId", JValue.str sid1)]
        = (⟨201, Body.doc fid1 d⟩,
           { emptyStore with sensorData := emptyStore.sensorData ++ [(fid1, d)] })
      ∧ d.sensor = none :=
  historical_sensor_data_post_drops_sensorId 7 fid1 emptyStore
    (JValue.num 5) (JValue.num 4) sid1 rfl rfl (by decide)

end SensorSystem
